import Mathlib

/-!
Verification of `src/ern-local-cli/src/lib/utils.js` (electrode-native).

Shallow embedding conventions:
- Each awaited call to the external Cauldron state-store client or the
  container generator is modelled as an emitted event; an environment
  record says which calls throw (`some errMsg`) and which succeed (`none`).
- JavaScript truthiness of optional string parameters is modelled by
  `truthyS`: an absent option (`none`) and the empty string are both falsy,
  exactly as `if (x)` behaves on `string | undefined` in the source.
- Errors are modelled abstractly as the message strings the collaborators
  throw; the orchestrator only propagates them.
-/

namespace ErnUtils

/-- JavaScript truthiness for an optional string parameter:
`undefined` and `""` are falsy, every other string is truthy. -/
def truthyS : Option String → Bool
  | some s => s ≠ ""
  | none => false

/-- A parsed semantic version, the form the state store records for a
top-level container version (spec interface:
`getTopLevelContainerVersion(descriptor) -> SemVer | null`). -/
structure SemVer where
  major : Nat
  minor : Nat
  patch : Nat
deriving DecidableEq, Repr

/-- Rendering of a semantic version back to its string form. -/
def renderSemVer (v : SemVer) : String :=
  toString v.major ++ "." ++ toString v.minor ++ "." ++ toString v.patch

/-- Patch increment, the `semver.inc(v, 'patch')` operation on a plain
`major.minor.patch` version: increment the patch component. -/
def semverIncPatch (v : SemVer) : SemVer :=
  ⟨v.major, v.minor, v.patch + 1⟩

/-! ## performContainerStateUpdateInCauldron (utils.js lines 303-349) -/

/-- One observable call made by `performContainerStateUpdateInCauldron`.
Fallible store writes that matter for reader-visible state
(`updateContainerVersion`, `commitTransaction`) carry whether the call
succeeded, so the store semantics below can tell an applied write from a
thrown one. -/
inductive CEvent
  | getTopLevelContainerVersion
  | beginTransaction
  | stateUpdateFunc
  | runCauldronContainerGen (version : String) (publish : Bool)
  | updateContainerVersion (version : String) (ok : Bool)
  | commitTransaction (ok : Bool)
  | logError
  | discardTransaction
  | logDebug
deriving DecidableEq, Repr

/-- Environment for one invocation: the store's answer to the version read,
and for each fallible awaited call, `some e` when that call throws error `e`.
`discardError` records a failing `discardTransaction`; the source invokes
`cauldron.discardTransaction()` without `await` inside the catch block, so a
rejection of that promise can never change the function's control flow, and
accordingly no definition below consults `discardError`. -/
structure CauldronEnv where
  topLevelVersion : Option SemVer
  beginError : Option String
  stateUpdateError : Option String
  containerGenError : Option String
  updateVersionError : Option String
  commitError : Option String
  discardError : Option String
deriving DecidableEq, Repr

/-- The `else` branch of version selection: read the current top-level
container version from the store; patch-increment it when present, default
to `1.0.0` when absent (utils.js lines 314-320). -/
def selectFromStore (env : CauldronEnv) : String × List CEvent :=
  match env.topLevelVersion with
  | some v => (renderSemVer (semverIncPatch v), [CEvent.getTopLevelContainerVersion])
  | none => ("1.0.0", [CEvent.getTopLevelContainerVersion])

/-- Container version selection (utils.js lines 310-321): `if
(containerVersion)` uses the caller's version verbatim when truthy,
otherwise falls back to the store read. -/
def selectContainerVersion (env : CauldronEnv) (containerVersion : Option String) :
    String × List CEvent :=
  match containerVersion with
  | some v => if v = "" then selectFromStore env else (v, [])
  | none => selectFromStore env

/-- The `try`/`catch` body of `performContainerStateUpdateInCauldron`
(utils.js lines 323-348) at the already-selected version `v`: begin
transaction, run the caller's mutation, generate the container with
`{ publish: true }`, write the version pointer, commit; on the first call
that throws, log the error, invoke `discardTransaction` (not awaited) and
re-raise the original error. -/
def updateBody (env : CauldronEnv) (v : String) : List CEvent × Except String Unit :=
  match env.beginError with
  | some e =>
    ([CEvent.beginTransaction, CEvent.logError, CEvent.discardTransaction],
     Except.error e)
  | none =>
    match env.stateUpdateError with
    | some e =>
      ([CEvent.beginTransaction, CEvent.stateUpdateFunc,
        CEvent.logError, CEvent.discardTransaction],
       Except.error e)
    | none =>
      match env.containerGenError with
      | some e =>
        ([CEvent.beginTransaction, CEvent.stateUpdateFunc,
          CEvent.runCauldronContainerGen v true,
          CEvent.logError, CEvent.discardTransaction],
         Except.error e)
      | none =>
        match env.updateVersionError with
        | some e =>
          ([CEvent.beginTransaction, CEvent.stateUpdateFunc,
            CEvent.runCauldronContainerGen v true,
            CEvent.updateContainerVersion v false,
            CEvent.logError, CEvent.discardTransaction],
           Except.error e)
        | none =>
          match env.commitError with
          | some e =>
            ([CEvent.beginTransaction, CEvent.stateUpdateFunc,
              CEvent.runCauldronContainerGen v true,
              CEvent.updateContainerVersion v true,
              CEvent.commitTransaction false,
              CEvent.logError, CEvent.discardTransaction],
             Except.error e)
          | none =>
            ([CEvent.beginTransaction, CEvent.stateUpdateFunc,
              CEvent.runCauldronContainerGen v true,
              CEvent.updateContainerVersion v true,
              CEvent.commitTransaction true,
              CEvent.logDebug],
             Except.ok ())

/-- The function `performContainerStateUpdateInCauldron` (utils.js lines 303-349):
version selection happens before the `try` block, then the transactional
body runs at the selected version. Returns the trace of collaborator calls
and the function's outcome. -/
def performContainerStateUpdateInCauldron (env : CauldronEnv)
    (containerVersion : Option String) : List CEvent × Except String Unit :=
  let sel := selectContainerVersion env containerVersion
  ((sel.2 ++ (updateBody env sel.1).1), (updateBody env sel.1).2)

/-- The first error raised among the five fallible steps of the body, in
execution order. -/
def firstError (env : CauldronEnv) : Option String :=
  match env.beginError with
  | some e => some e
  | none =>
    match env.stateUpdateError with
    | some e => some e
    | none =>
      match env.containerGenError with
      | some e => some e
      | none =>
        match env.updateVersionError with
        | some e => some e
        | none => env.commitError

/-- The five transactional update steps, without their arguments. -/
inductive UStep
  | begin
  | mutate
  | generate
  | updatePtr
  | commit
deriving DecidableEq, Repr

/-- Project an event to the update step it performs, if any. -/
def stepOf : CEvent → Option UStep
  | CEvent.beginTransaction => some UStep.begin
  | CEvent.stateUpdateFunc => some UStep.mutate
  | CEvent.runCauldronContainerGen _ _ => some UStep.generate
  | CEvent.updateContainerVersion _ _ => some UStep.updatePtr
  | CEvent.commitTransaction _ => some UStep.commit
  | _ => none

/-- The update steps performed in a trace, in order. -/
def stepsOf (tr : List CEvent) : List UStep :=
  tr.filterMap stepOf

/-- The canonical order of the update steps, per the source's straight-line
body. -/
def canonicalUpdateSteps : List UStep :=
  [UStep.begin, UStep.mutate, UStep.generate, UStep.updatePtr, UStep.commit]

/-- Modelled from the spec: the external Cauldron client's transaction
visibility semantics (its implementation is not part of this repository).
`committed` is the version pointer other readers see; `pending` is an
in-transaction write, invisible until commit and dropped on discard. -/
structure StoreView where
  committed : Option String
  pending : Option String
deriving DecidableEq, Repr

/-- Modelled from the spec: effect of one traced call on the reader-visible
version pointer. A successful `updateContainerVersion` records a pending
write; a successful `commitTransaction` publishes it; `discardTransaction`
drops it; a call that threw records nothing. All other calls do not touch
the pointer. -/
def applyCEvent (s : StoreView) : CEvent → StoreView
  | CEvent.updateContainerVersion v true => { s with pending := some v }
  | CEvent.commitTransaction true =>
    { committed := match s.pending with
        | some v => some v
        | none => s.committed,
      pending := none }
  | CEvent.discardTransaction => { s with pending := none }
  | _ => s

/-- The version pointer a concurrent reader sees after the traced calls,
starting from committed pointer `init` and no open transaction. -/
def readerView (init : Option String) (tr : List CEvent) : Option String :=
  (tr.foldl applyCEvent ⟨init, none⟩).committed

/-! ## logErrorAndExitIfNotSatisfied (utils.js lines 77-267) -/

/-- The fifteen precondition checks the function can run, one constructor
per optional parameter of `logErrorAndExitIfNotSatisfied`. -/
inductive CheckName
  | cauldronIsActive
  | isValidContainerVersion
  | isNewerContainerVersion
  | isCompleteNapDescriptorString
  | noGitOrFilesystemPath
  | napDescriptorExistInCauldron
  | napDescritorDoesNotExistsInCauldron
  | publishedToNpm
  | miniAppNotInNativeApplicationVersionContainer
  | miniAppIsInNativeApplicationVersionContainer
  | miniAppIsInNativeApplicationVersionContainerWithDifferentVersion
  | dependencyNotInNativeApplicationVersionContainer
  | dependencyIsInNativeApplicationVersionContainer
  | dependencyIsInNativeApplicationVersionContainerWithDifferentVersion
  | dependencyNotInUseByAMiniApp
deriving DecidableEq, Repr

/-- One invocation's precondition specification plus environment: for each
optional parameter, `none` when the check is not requested, and `some pass`
when it is requested and the corresponding external `Ensure` check passes
(`pass = true`) or throws (`pass = false`). The `Ensure` implementations
live outside this repository, so their outcomes are environment data. -/
structure CheckSpec where
  cauldronIsActive : Option Bool
  isValidContainerVersion : Option Bool
  isNewerContainerVersion : Option Bool
  isCompleteNapDescriptorString : Option Bool
  noGitOrFilesystemPath : Option Bool
  napDescriptorExistInCauldron : Option Bool
  napDescritorDoesNotExistsInCauldron : Option Bool
  publishedToNpm : Option Bool
  miniAppNotInNativeApplicationVersionContainer : Option Bool
  miniAppIsInNativeApplicationVersionContainer : Option Bool
  miniAppIsInNativeApplicationVersionContainerWithDifferentVersion : Option Bool
  dependencyNotInNativeApplicationVersionContainer : Option Bool
  dependencyIsInNativeApplicationVersionContainer : Option Bool
  dependencyIsInNativeApplicationVersionContainerWithDifferentVersion : Option Bool
  dependencyNotInUseByAMiniApp : Option Bool
deriving DecidableEq, Repr

/-- A requested check contributes one entry, an absent one contributes
nothing. -/
def optEntry (n : CheckName) : Option Bool → List (CheckName × Bool)
  | some b => [(n, b)]
  | none => []

/-- The checks requested by a specification, in the fixed order of the
source's `if` chain (utils.js lines 164-261). -/
def presentChecks (s : CheckSpec) : List (CheckName × Bool) :=
  optEntry CheckName.cauldronIsActive s.cauldronIsActive ++
  optEntry CheckName.isValidContainerVersion s.isValidContainerVersion ++
  optEntry CheckName.isNewerContainerVersion s.isNewerContainerVersion ++
  optEntry CheckName.isCompleteNapDescriptorString s.isCompleteNapDescriptorString ++
  optEntry CheckName.noGitOrFilesystemPath s.noGitOrFilesystemPath ++
  optEntry CheckName.napDescriptorExistInCauldron s.napDescriptorExistInCauldron ++
  optEntry CheckName.napDescritorDoesNotExistsInCauldron
    s.napDescritorDoesNotExistsInCauldron ++
  optEntry CheckName.publishedToNpm s.publishedToNpm ++
  optEntry CheckName.miniAppNotInNativeApplicationVersionContainer
    s.miniAppNotInNativeApplicationVersionContainer ++
  optEntry CheckName.miniAppIsInNativeApplicationVersionContainer
    s.miniAppIsInNativeApplicationVersionContainer ++
  optEntry CheckName.miniAppIsInNativeApplicationVersionContainerWithDifferentVersion
    s.miniAppIsInNativeApplicationVersionContainerWithDifferentVersion ++
  optEntry CheckName.dependencyNotInNativeApplicationVersionContainer
    s.dependencyNotInNativeApplicationVersionContainer ++
  optEntry CheckName.dependencyIsInNativeApplicationVersionContainer
    s.dependencyIsInNativeApplicationVersionContainer ++
  optEntry CheckName.dependencyIsInNativeApplicationVersionContainerWithDifferentVersion
    s.dependencyIsInNativeApplicationVersionContainerWithDifferentVersion ++
  optEntry CheckName.dependencyNotInUseByAMiniApp s.dependencyNotInUseByAMiniApp

/-- Outcome of the checker: either all checks passed (`spinner.succeed`,
normal return) or a check threw, in which case the source's catch block
reports the failure (`spinner.fail(e.message)`) and calls
`process.exit(1)`. The caught error is never re-thrown, so there is no
error-outcome constructor. -/
inductive CheckOutcome
  | success
  | failure (reported : CheckName) (exitCode : Nat)
deriving DecidableEq, Repr

/-- Sequential execution of the requested checks inside the source's single
`try` block: each passing check continues to the next, the first throwing
check transfers control to the catch block, which reports it and exits with
code 1. Returns the list of checks that executed (in order) and the
outcome. -/
def runChecks : List (CheckName × Bool) → List CheckName × CheckOutcome
  | [] => ([], CheckOutcome.success)
  | (n, pass) :: rest =>
    if pass then
      ((n :: (runChecks rest).1), (runChecks rest).2)
    else ([n], CheckOutcome.failure n 1)

/-- The function `logErrorAndExitIfNotSatisfied` (utils.js lines 77-267). -/
def logErrorAndExitIfNotSatisfied (s : CheckSpec) : List CheckName × CheckOutcome :=
  runChecks (presentChecks s)

/-- Stated from the spec's words, for comparison with the implementation:
"Checks execute sequentially; the first failing check aborts the remaining
checks" — the executed checks are the longest passing prefix, plus the
first failing check when one exists. -/
def specExecutedChecks (l : List (CheckName × Bool)) : List CheckName :=
  (l.takeWhile (fun e => e.2)).map Prod.fst ++
    ((l.dropWhile (fun e => e.2)).take 1).map Prod.fst

/-! ## getNapDescriptorStringsFromCauldron (utils.js lines 50-72) -/

/-- One native application version entry in the store
(`{name, isReleased}`). -/
structure VersionEntry where
  name : String
  isReleased : Bool
deriving DecidableEq, Repr

/-- One platform entry of a native application (`{name, versions}`). -/
structure PlatformEntry where
  name : String
  versions : List VersionEntry
deriving DecidableEq, Repr

/-- One native application as returned by `cauldron.getAllNativeApps()`
(`{name, platforms}`). -/
structure NativeApp where
  name : String
  platforms : List PlatformEntry
deriving DecidableEq, Repr

/-- The innermost mapped function of `getNapDescriptorStringsFromCauldron`
(utils.js lines 64-70): produce the descriptor string when the platform and
release-status filters accept the version, `undefined` (here `none`)
otherwise. The platform filter `!platform || platform === p.name` uses the
option's truthiness. -/
def napDescriptorEntry (platform : Option String)
    (onlyReleasedVersions onlyNonReleasedVersions : Bool)
    (appName : String) (p : PlatformEntry) (version : VersionEntry) :
    Option String :=
  if truthyS platform = false ∨ platform = some p.name then
    if (version.isReleased ∧ onlyNonReleasedVersions = false) ∨
        (version.isReleased = false ∧ onlyReleasedVersions = false) then
      some (appName ++ ":" ++ p.name ++ ":" ++ version.name)
    else none
  else none

/-- The function `getNapDescriptorStringsFromCauldron` (utils.js lines 50-72) applied to
the store contents `nativeApps`: the nested `_.map`s build a deep array of
strings and `undefined`s, `_.flattenDeep` flattens it and `_.filter ... elt
!== undefined` keeps the defined strings; `List.filterMap` over the
flattened traversal is exactly that composite. -/
def getNapDescriptorStringsFromCauldron (nativeApps : List NativeApp)
    (platform : Option String)
    (onlyReleasedVersions onlyNonReleasedVersions : Bool) : List String :=
  nativeApps.flatMap fun nativeApp =>
    nativeApp.platforms.flatMap fun p =>
      p.versions.filterMap fun version =>
        napDescriptorEntry platform onlyReleasedVersions onlyNonReleasedVersions
          nativeApp.name p version

/-! ## runMiniApp (utils.js lines 360-487) -/

/-- Observable effectful steps of `runMiniApp` after its input validation:
the declarative precondition check, starting the packager for a standalone
MiniApp, container generation for the runner, generating or regenerating
the runner project, and launching it. Collaborator calls are modelled at
this granularity because every claim about `runMiniApp` concerns only
whether any of them has begun. -/
inductive REvent
  | preconditionCheck
  | startPackager
  | containerGen
  | runnerProjectGen
  | runnerConfigRegen
  | launchRunner
deriving DecidableEq, Repr

/-- The optional named arguments of `runMiniApp`. -/
structure RunMiniAppArgs where
  mainMiniAppName : Option String
  miniapps : Option (List String)
  dependencies : Option (List String)
  descriptor : Option String
  dev : Option Bool
deriving DecidableEq, Repr

/-- Environment of `runMiniApp`: answers of the local collaborators that
steer its branching (`MiniApp.existInPath(cwd)` and
`fs.existsSync(pathToRunner)`). -/
structure RunnerEnv where
  existInPath : Bool
  runnerProjectExists : Bool
deriving DecidableEq, Repr

/-- Value of `miniapps.length` when the array is present, `0` otherwise; `miniapps
&& miniapps.length > 1` is equivalent to this count exceeding one, since an
absent array fails the guard and a present array is always truthy. -/
def miniappsLen (a : RunMiniAppArgs) : Nat :=
  match a.miniapps with
  | some l => l.length
  | none => 0

/-- Guard `dependencies && dependencies.length > 0`, by the same encoding. -/
def dependenciesLen (a : RunMiniAppArgs) : Nat :=
  match a.dependencies with
  | some l => l.length
  | none => 0

/-- The function `runMiniApp` (utils.js lines 360-487): four input-validation guards
throw before anything effectful runs; surviving them, the descriptor branch
runs the precondition check, the standalone branch (no miniapps, no
descriptor) may start the packager when `dev` is undefined, and the
platform dispatch generates the container and the runner project (fresh or
regenerated) before launching; an unrecognized platform string throws.
Collaborator calls inside the body are modelled as succeeding events: no
claim depends on their failures, which the source merely propagates. -/
def runMiniApp (env : RunnerEnv) (platform : String) (a : RunMiniAppArgs) :
    List REvent × Except String Unit :=
  if miniappsLen a > 1 ∧ truthyS a.mainMiniAppName = false then
    ([], Except.error
      "If you provide multiple MiniApps you need to provide the name of the MiniApp to launch")
  else if miniappsLen a > 1 ∧ a.dev = some true then
    ([], Except.error
      "You cannot enable development mode yet when running multiple MiniApps")
  else if dependenciesLen a > 0 ∧ truthyS a.descriptor = true then
    ([], Except.error
      "You cannot pass extra native dependencies when using a Native Application Descriptor")
  else if a.miniapps.isSome ∧ truthyS a.descriptor = true then
    ([], Except.error "You cannot use miniapps and descriptor at the same time")
  else
    let preEvents :=
      (if truthyS a.descriptor then [REvent.preconditionCheck] else []) ++
      (if a.miniapps.isNone ∧ truthyS a.descriptor = false ∧ a.dev = none then
        [REvent.startPackager]
      else [])
    if platform = "android" ∨ platform = "ios" then
      (preEvents ++ [REvent.containerGen] ++
        (if env.runnerProjectExists then [REvent.runnerConfigRegen]
         else [REvent.runnerProjectGen]) ++
        [REvent.launchRunner],
       Except.ok ())
    else
      (preEvents, Except.error ("Unsupported platform : " ++ platform))

/-! ## Shared helper lemmas -/

/-- The transactional body never reads the top-level container version:
that read happens only during version selection, before the `try` block. -/
theorem getTopLevel_not_mem_updateBody (env : CauldronEnv) (v : String) :
    CEvent.getTopLevelContainerVersion ∉ (updateBody env v).1 := by
  obtain ⟨tv, be, se, ge, ue, ce, de⟩ := env
  cases be <;> cases se <;> cases ge <;> cases ue <;> cases ce <;>
    simp [updateBody]

/-- Version selection emits at most the store read. -/
theorem selectContainerVersion_events (env : CauldronEnv) (cv : Option String) :
    (selectContainerVersion env cv).2 = [] ∨
    (selectContainerVersion env cv).2 = [CEvent.getTopLevelContainerVersion] := by
  rcases cv with _ | v
  · rcases h : env.topLevelVersion with _ | sv <;>
      simp [selectContainerVersion, selectFromStore, h]
  · by_cases hv : v = "" <;> rcases h : env.topLevelVersion with _ | sv <;>
      simp [selectContainerVersion, selectFromStore, h, hv]

/-- On any failing step, the body re-raises that step's error, logs it, and
ends by invoking the discard. -/
theorem updateBody_error (env : CauldronEnv) (v e : String)
    (h : firstError env = some e) :
    (updateBody env v).2 = Except.error e ∧
    CEvent.logError ∈ (updateBody env v).1 ∧
    (updateBody env v).1.getLast? = some CEvent.discardTransaction := by
  obtain ⟨tv, be, se, ge, ue, ce, de⟩ := env
  cases be <;> cases se <;> cases ge <;> cases ue <;> cases ce <;>
    simp [firstError] at h <;> simp [updateBody, h]

/-- The body's step projection is always an initial segment of the
canonical step order. -/
theorem stepsOf_updateBody_initial (env : CauldronEnv) (v : String) :
    stepsOf (updateBody env v).1 =
      canonicalUpdateSteps.take (stepsOf (updateBody env v).1).length := by
  obtain ⟨tv, be, se, ge, ue, ce, de⟩ := env
  cases be <;> cases se <;> cases ge <;> cases ue <;> cases ce <;>
    simp [updateBody, stepsOf, stepOf, canonicalUpdateSteps]

/-- Any container-generation event in the body carries the selected version
and `publish: true`. -/
theorem updateBody_gen_event (env : CauldronEnv) (w v : String) (pub : Bool)
    (h : CEvent.runCauldronContainerGen v pub ∈ (updateBody env w).1) :
    pub = true ∧ v = w := by
  obtain ⟨tv, be, se, ge, ue, ce, de⟩ := env
  cases be <;> cases se <;> cases ge <;> cases ue <;> cases ce <;>
    simp [updateBody] at h <;> tauto

/-- Any version-pointer write event in the body carries the selected
version. -/
theorem updateBody_update_event (env : CauldronEnv) (w v : String) (ok : Bool)
    (h : CEvent.updateContainerVersion v ok ∈ (updateBody env w).1) :
    v = w := by
  obtain ⟨tv, be, se, ge, ue, ce, de⟩ := env
  cases be <;> cases se <;> cases ge <;> cases ue <;> cases ce <;>
    simp [updateBody] at h <;> tauto

/-- An environment in which every call succeeds and the store records
top-level container version `2.1.0`. -/
def envAllOk : CauldronEnv :=
  { topLevelVersion := some ⟨2, 1, 0⟩, beginError := none, stateUpdateError := none,
    containerGenError := none, updateVersionError := none, commitError := none,
    discardError := none }

/-- Environment `envAllOk` with a failing `beginTransaction`. -/
def envBeginFails : CauldronEnv :=
  { envAllOk with beginError := some "store unreachable" }

/-- Environment `envAllOk` with a failing mutation callback. -/
def envMutationFails : CauldronEnv :=
  { envAllOk with stateUpdateError := some "mutation failed" }

/-- Environment `envAllOk` with a failing container generation. -/
def envGenFails : CauldronEnv :=
  { envAllOk with containerGenError := some "generation failed" }

/-! ## Claim theorems -/

/-- C1: whenever any of transaction open, the mutation callback, container
generation, the version-pointer write or the commit raises an error inside
`performContainerStateUpdateInCauldron`, the error is logged, the
transaction discard is the last call made before control returns (so the
transaction is explicitly closed on every error path), the original error
is re-raised to the caller, and the outcome is identical whether or not the
discard itself fails, so a discard failure is never escalated. -/
theorem updateFailure_discardsAndRethrows (env : CauldronEnv)
    (cv : Option String) (e d : String) (h : firstError env = some e) :
    (performContainerStateUpdateInCauldron env cv).2 = Except.error e ∧
    CEvent.logError ∈ (performContainerStateUpdateInCauldron env cv).1 ∧
    (performContainerStateUpdateInCauldron env cv).1.getLast? =
      some CEvent.discardTransaction ∧
    performContainerStateUpdateInCauldron { env with discardError := some d } cv =
      performContainerStateUpdateInCauldron env cv := by
  have hb := updateBody_error env (selectContainerVersion env cv).1 e h
  refine ⟨hb.1, ?_, ?_, rfl⟩
  · exact List.mem_append_right _ hb.2.1
  · have hne : (updateBody env (selectContainerVersion env cv).1).1 ≠ [] := by
      intro hnil
      rw [hnil] at hb
      simp at hb
    rw [show (performContainerStateUpdateInCauldron env cv).1 =
        (selectContainerVersion env cv).2 ++
          (updateBody env (selectContainerVersion env cv).1).1 from rfl]
    rw [List.getLast?_append_of_ne_nil _ hne]
    exact hb.2.2

/-- C1 witness: a concrete run in which container generation fails. -/
theorem updateFailure_discardsAndRethrows_witness :
    (performContainerStateUpdateInCauldron envGenFails none).2 =
      Except.error "generation failed" ∧
    CEvent.logError ∈ (performContainerStateUpdateInCauldron envGenFails none).1 ∧
    (performContainerStateUpdateInCauldron envGenFails none).1.getLast? =
      some CEvent.discardTransaction ∧
    performContainerStateUpdateInCauldron
        { envGenFails with discardError := some "discard failed" } none =
      performContainerStateUpdateInCauldron envGenFails none :=
  updateFailure_discardsAndRethrows envGenFails none "generation failed"
    "discard failed" (by decide)

/-- C2: within one invocation of `performContainerStateUpdateInCauldron`,
version selection (with its optional store read) happens strictly before
the transactional body, whose update steps form an initial segment of the
canonical order begin → mutation → generation → pointer write → commit;
every generation event carries the selected version and `publish: true`,
and every pointer-write event carries the selected version, so the artifact
is generated and published before the pointer is persisted and before the
commit. -/
theorem updateSteps_strictOrder (env : CauldronEnv) (cv : Option String)
    (v : String) (pub ok : Bool) :
    (performContainerStateUpdateInCauldron env cv).1 =
      (selectContainerVersion env cv).2 ++
        (updateBody env (selectContainerVersion env cv).1).1 ∧
    CEvent.getTopLevelContainerVersion ∉
      (updateBody env (selectContainerVersion env cv).1).1 ∧
    stepsOf (updateBody env (selectContainerVersion env cv).1).1 =
      canonicalUpdateSteps.take
        (stepsOf (updateBody env (selectContainerVersion env cv).1).1).length ∧
    (CEvent.runCauldronContainerGen v pub ∈
        (performContainerStateUpdateInCauldron env cv).1 →
      pub = true ∧ v = (selectContainerVersion env cv).1) ∧
    (CEvent.updateContainerVersion v ok ∈
        (performContainerStateUpdateInCauldron env cv).1 →
      v = (selectContainerVersion env cv).1) := by
  refine ⟨rfl, getTopLevel_not_mem_updateBody env _,
    stepsOf_updateBody_initial env _, ?_, ?_⟩
  · intro hmem
    rcases List.mem_append.1 hmem with hl | hr
    · rcases selectContainerVersion_events env cv with hsel | hsel <;>
        rw [hsel] at hl <;> simp at hl
    · exact updateBody_gen_event env _ v pub hr
  · intro hmem
    rcases List.mem_append.1 hmem with hl | hr
    · rcases selectContainerVersion_events env cv with hsel | hsel <;>
        rw [hsel] at hl <;> simp at hl
    · exact updateBody_update_event env _ v ok hr

/-- C2 witness: a concrete fully successful run with no explicit version;
the selected version is the patch increment `2.1.1`. -/
theorem updateSteps_strictOrder_witness :
    (performContainerStateUpdateInCauldron envAllOk none).1 =
      (selectContainerVersion envAllOk none).2 ++
        (updateBody envAllOk (selectContainerVersion envAllOk none).1).1 ∧
    CEvent.getTopLevelContainerVersion ∉
      (updateBody envAllOk (selectContainerVersion envAllOk none).1).1 ∧
    stepsOf (updateBody envAllOk (selectContainerVersion envAllOk none).1).1 =
      canonicalUpdateSteps.take
        (stepsOf (updateBody envAllOk
          (selectContainerVersion envAllOk none).1).1).length ∧
    (true = true ∧ "2.1.1" = (selectContainerVersion envAllOk none).1) ∧
    "2.1.1" = (selectContainerVersion envAllOk none).1 := by
  have h := updateSteps_strictOrder envAllOk none "2.1.1" true true
  exact ⟨h.1, h.2.1, h.2.2.1, h.2.2.2.1 (by decide), h.2.2.2.2 (by decide)⟩

/-- C3: when no explicit containerVersion is supplied, the selected
container version is `1.0.0` if the store records no prior top-level
container version, and the patch increment of the recorded version
otherwise; the selection reads the store and precedes the transactional
body of `performContainerStateUpdateInCauldron`. -/
theorem containerVersionSelection_defaults (env : CauldronEnv)
    (M m p : Nat) :
    (performContainerStateUpdateInCauldron env none).1 =
      (selectContainerVersion env none).2 ++
        (updateBody env (selectContainerVersion env none).1).1 ∧
    (env.topLevelVersion = none →
      selectContainerVersion env none =
        ("1.0.0", [CEvent.getTopLevelContainerVersion])) ∧
    (env.topLevelVersion = some ⟨M, m, p⟩ →
      selectContainerVersion env none =
        (renderSemVer ⟨M, m, p + 1⟩, [CEvent.getTopLevelContainerVersion])) := by
  refine ⟨rfl, ?_, ?_⟩
  · intro h
    simp [selectContainerVersion, selectFromStore, h]
  · intro h
    simp [selectContainerVersion, selectFromStore, h, semverIncPatch]

/-- C3 witness: prior version `2.1.0` yields selected version `2.1.1`. -/
theorem containerVersionSelection_defaults_witness :
    selectContainerVersion envAllOk none =
      ("2.1.1", [CEvent.getTopLevelContainerVersion]) := by
  have h := (containerVersionSelection_defaults envAllOk 2 1 0).2.2 rfl
  have hr : renderSemVer ⟨2, 1, 1⟩ = "2.1.1" := by decide
  rw [hr] at h
  exact h

/-- C4: if the mutation callback throws (the transaction having opened
successfully), the call fails with that error, `updateContainerVersion` is
never invoked, the transaction is discarded, and the version pointer a
reader sees afterwards is whatever it was before the call. -/
theorem mutationFailure_framesPointer (env : CauldronEnv) (cv : Option String)
    (e : String) (init : Option String) (v : String) (b : Bool)
    (h1 : env.beginError = none) (h2 : env.stateUpdateError = some e) :
    (performContainerStateUpdateInCauldron env cv).2 = Except.error e ∧
    CEvent.updateContainerVersion v b ∉
      (performContainerStateUpdateInCauldron env cv).1 ∧
    CEvent.discardTransaction ∈
      (performContainerStateUpdateInCauldron env cv).1 ∧
    readerView init (performContainerStateUpdateInCauldron env cv).1 = init := by
  obtain ⟨tv, be, se, ge, ue, ce, de⟩ := env
  simp only at h1 h2
  subst h1
  subst h2
  rcases cv with _ | w
  · rcases tv with _ | sv <;>
      simp [performContainerStateUpdateInCauldron, updateBody,
        selectContainerVersion, selectFromStore, readerView, applyCEvent]
  · by_cases hw : w = "" <;> rcases tv with _ | sv <;>
      simp [performContainerStateUpdateInCauldron, updateBody,
        selectContainerVersion, selectFromStore, readerView, applyCEvent, hw]

/-- C4 witness: a concrete run whose mutation callback fails, starting from
committed pointer `2.1.0`. -/
theorem mutationFailure_framesPointer_witness :
    (performContainerStateUpdateInCauldron envMutationFails none).2 =
      Except.error "mutation failed" ∧
    CEvent.updateContainerVersion "2.1.1" true ∉
      (performContainerStateUpdateInCauldron envMutationFails none).1 ∧
    CEvent.discardTransaction ∈
      (performContainerStateUpdateInCauldron envMutationFails none).1 ∧
    readerView (some "2.1.0")
      (performContainerStateUpdateInCauldron envMutationFails none).1 =
      some "2.1.0" :=
  mutationFailure_framesPointer envMutationFails none "mutation failed"
    (some "2.1.0") "2.1.1" true rfl rfl

/-- C5: if `beginTransaction` throws, the call fails with the store's error
and the only attempted update step is the transaction open itself: the
mutation, the container generation, the pointer write and the commit never
execute. -/
theorem beginFailure_abortsUpdate (env : CauldronEnv) (cv : Option String)
    (e : String) (h : env.beginError = some e) :
    (performContainerStateUpdateInCauldron env cv).2 = Except.error e ∧
    stepsOf (performContainerStateUpdateInCauldron env cv).1 = [UStep.begin] := by
  obtain ⟨tv, be, se, ge, ue, ce, de⟩ := env
  simp only at h
  subst h
  rcases cv with _ | w
  · rcases tv with _ | sv <;>
      simp [performContainerStateUpdateInCauldron, updateBody,
        selectContainerVersion, selectFromStore, stepsOf, stepOf]
  · by_cases hw : w = "" <;> rcases tv with _ | sv <;>
      simp [performContainerStateUpdateInCauldron, updateBody,
        selectContainerVersion, selectFromStore, stepsOf, stepOf, hw]

/-- C5 witness: a concrete run whose `beginTransaction` fails. -/
theorem beginFailure_abortsUpdate_witness :
    (performContainerStateUpdateInCauldron envBeginFails none).2 =
      Except.error "store unreachable" ∧
    stepsOf (performContainerStateUpdateInCauldron envBeginFails none).1 =
      [UStep.begin] :=
  beginFailure_abortsUpdate envBeginFails none "store unreachable" rfl

/-- C6: with an explicit truthy (non-empty) containerVersion, the selected
version is the supplied string verbatim and the store's top-level container
version is never read during the invocation. -/
theorem explicitContainerVersion_verbatim (env : CauldronEnv) (v : String)
    (h : v ≠ "") :
    selectContainerVersion env (some v) = (v, []) ∧
    CEvent.getTopLevelContainerVersion ∉
      (performContainerStateUpdateInCauldron env (some v)).1 := by
  have hsel : selectContainerVersion env (some v) = (v, []) := by
    simp [selectContainerVersion, h]
  refine ⟨hsel, ?_⟩
  intro hmem
  rcases List.mem_append.1 hmem with hl | hr
  · rw [hsel] at hl
    simp at hl
  · exact getTopLevel_not_mem_updateBody env _ hr

/-- C6 witness: explicit version `3.0.0` is used verbatim and the store is
not read. -/
theorem explicitContainerVersion_verbatim_witness :
    selectContainerVersion envAllOk (some "3.0.0") = ("3.0.0", []) ∧
    CEvent.getTopLevelContainerVersion ∉
      (performContainerStateUpdateInCauldron envAllOk (some "3.0.0")).1 :=
  explicitContainerVersion_verbatim envAllOk "3.0.0" (by decide)

/-- The executed-check trace of the sequential runner is the longest
passing prefix plus the first failing check, exactly the spec's
short-circuit description. -/
theorem runChecks_trace (l : List (CheckName × Bool)) :
    (runChecks l).1 = specExecutedChecks l := by
  induction l with
  | nil => rfl
  | cons x rest ih =>
    obtain ⟨n, b⟩ := x
    cases b
    · simp [runChecks, specExecutedChecks]
    · simp only [runChecks, if_pos, specExecutedChecks, List.takeWhile_cons,
        List.dropWhile_cons] at ih ⊢
      simp [ih, specExecutedChecks]

/-- If some requested check fails, the runner ends in a reported failure
with exit code 1. -/
theorem runChecks_failure (l : List (CheckName × Bool))
    (h : l.any (fun x => !x.2) = true) :
    ∃ n, (runChecks l).2 = CheckOutcome.failure n 1 := by
  induction l with
  | nil => simp at h
  | cons x rest ih =>
    obtain ⟨n, b⟩ := x
    cases b
    · exact ⟨n, by simp [runChecks]⟩
    · simp at h
      obtain ⟨m, hm⟩ := ih (by simpa using h)
      exact ⟨m, by simpa [runChecks] using hm⟩

/-- A check specification requesting the cauldron-active check (failing)
and the descriptor-completeness check (which would pass). -/
def specCauldronInactive : CheckSpec :=
  { cauldronIsActive := some false, isValidContainerVersion := none,
    isNewerContainerVersion := none, isCompleteNapDescriptorString := some true,
    noGitOrFilesystemPath := none, napDescriptorExistInCauldron := none,
    napDescritorDoesNotExistsInCauldron := none, publishedToNpm := none,
    miniAppNotInNativeApplicationVersionContainer := none,
    miniAppIsInNativeApplicationVersionContainer := none,
    miniAppIsInNativeApplicationVersionContainerWithDifferentVersion := none,
    dependencyNotInNativeApplicationVersionContainer := none,
    dependencyIsInNativeApplicationVersionContainer := none,
    dependencyIsInNativeApplicationVersionContainerWithDifferentVersion := none,
    dependencyNotInUseByAMiniApp := none }

/-- C7: the requested checks execute sequentially in the fixed source
order, the first failing check aborting the rest — the executed trace is
the longest passing prefix plus the first failure; in particular, whenever
the cauldron-active check is requested and fails, it is the only executed
check, so a requested descriptor-completeness check never executes. -/
theorem checksShortCircuit (s : CheckSpec) :
    (logErrorAndExitIfNotSatisfied s).1 = specExecutedChecks (presentChecks s) ∧
    (s.cauldronIsActive = some false →
      (logErrorAndExitIfNotSatisfied s).1 = [CheckName.cauldronIsActive] ∧
      CheckName.isCompleteNapDescriptorString ∉
        (logErrorAndExitIfNotSatisfied s).1) := by
  refine ⟨runChecks_trace (presentChecks s), ?_⟩
  intro h
  have hpc : ∃ rest, presentChecks s = (CheckName.cauldronIsActive, false) :: rest := by
    refine ⟨?_, ?_⟩
    · exact
        optEntry CheckName.isValidContainerVersion s.isValidContainerVersion ++
        optEntry CheckName.isNewerContainerVersion s.isNewerContainerVersion ++
        optEntry CheckName.isCompleteNapDescriptorString s.isCompleteNapDescriptorString ++
        optEntry CheckName.noGitOrFilesystemPath s.noGitOrFilesystemPath ++
        optEntry CheckName.napDescriptorExistInCauldron s.napDescriptorExistInCauldron ++
        optEntry CheckName.napDescritorDoesNotExistsInCauldron
          s.napDescritorDoesNotExistsInCauldron ++
        optEntry CheckName.publishedToNpm s.publishedToNpm ++
        optEntry CheckName.miniAppNotInNativeApplicationVersionContainer
          s.miniAppNotInNativeApplicationVersionContainer ++
        optEntry CheckName.miniAppIsInNativeApplicationVersionContainer
          s.miniAppIsInNativeApplicationVersionContainer ++
        optEntry CheckName.miniAppIsInNativeApplicationVersionContainerWithDifferentVersion
          s.miniAppIsInNativeApplicationVersionContainerWithDifferentVersion ++
        optEntry CheckName.dependencyNotInNativeApplicationVersionContainer
          s.dependencyNotInNativeApplicationVersionContainer ++
        optEntry CheckName.dependencyIsInNativeApplicationVersionContainer
          s.dependencyIsInNativeApplicationVersionContainer ++
        optEntry CheckName.dependencyIsInNativeApplicationVersionContainerWithDifferentVersion
          s.dependencyIsInNativeApplicationVersionContainerWithDifferentVersion ++
        optEntry CheckName.dependencyNotInUseByAMiniApp s.dependencyNotInUseByAMiniApp
    · simp [presentChecks, optEntry, h]
  obtain ⟨rest, hrest⟩ := hpc
  have htr : (logErrorAndExitIfNotSatisfied s).1 = [CheckName.cauldronIsActive] := by
    simp [logErrorAndExitIfNotSatisfied, hrest, runChecks]
  refine ⟨htr, ?_⟩
  rw [htr]
  simp

/-- C7 witness: cauldron-active requested and failing together with a
requested descriptor-completeness check. -/
theorem checksShortCircuit_witness :
    (logErrorAndExitIfNotSatisfied specCauldronInactive).1 =
      specExecutedChecks (presentChecks specCauldronInactive) ∧
    (logErrorAndExitIfNotSatisfied specCauldronInactive).1 =
      [CheckName.cauldronIsActive] ∧
    CheckName.isCompleteNapDescriptorString ∉
      (logErrorAndExitIfNotSatisfied specCauldronInactive).1 :=
  ⟨(checksShortCircuit specCauldronInactive).1,
   (checksShortCircuit specCauldronInactive).2 rfl⟩

/-- C8: whenever any requested check fails, the checker reports the failing
check and terminates the process with exit code 1; the source's catch block
never re-raises the caught error, so no failure is returned to the caller
as a recoverable in-process error (the outcome type has no error
constructor). -/
theorem checkFailure_exitsProcess (s : CheckSpec)
    (h : (presentChecks s).any (fun x => !x.2) = true) :
    ∃ n, (logErrorAndExitIfNotSatisfied s).2 = CheckOutcome.failure n 1 :=
  runChecks_failure (presentChecks s) h

/-- C8 witness: the failing cauldron-active check exits with code 1. -/
theorem checkFailure_exitsProcess_witness :
    ∃ n, (logErrorAndExitIfNotSatisfied specCauldronInactive).2 =
      CheckOutcome.failure n 1 :=
  checkFailure_exitsProcess specCauldronInactive (by decide)

/-- C9: each of the four inconsistent input combinations — several
mini-apps without a main mini-app name, several mini-apps with dev mode
enabled, a non-empty dependency list together with a (truthy) descriptor,
or mini-apps together with a descriptor — makes `runMiniApp` raise an error
with an empty effect trace: no precondition check, packager start,
container generation, runner generation or launch has begun. -/
theorem inconsistentInputs_failFast (env : RunnerEnv) (platform : String)
    (a : RunMiniAppArgs)
    (h : (miniappsLen a > 1 ∧ truthyS a.mainMiniAppName = false) ∨
         (miniappsLen a > 1 ∧ a.dev = some true) ∨
         (dependenciesLen a > 0 ∧ truthyS a.descriptor = true) ∨
         (a.miniapps.isSome = true ∧ truthyS a.descriptor = true)) :
    (runMiniApp env platform a).1 = [] ∧
    ∃ msg, (runMiniApp env platform a).2 = Except.error msg := by
  by_cases h1 : miniappsLen a > 1 ∧ truthyS a.mainMiniAppName = false
  · simp [runMiniApp, h1]
  · by_cases h2 : miniappsLen a > 1 ∧ a.dev = some true
    · simp only [runMiniApp]
      by_cases hm : truthyS a.mainMiniAppName = false <;> simp [h1, h2, hm]
    · by_cases h3 : dependenciesLen a > 0 ∧ truthyS a.descriptor = true
      · simp [runMiniApp, h1, h2, h3]
      · by_cases h4 : a.miniapps.isSome = true ∧ truthyS a.descriptor = true
        · simp only [runMiniApp]
          by_cases hd : dependenciesLen a > 0 <;> simp [h1, h2, h3, h4, hd]
        · rcases h with hc | hc | hc | hc
          · exact absurd hc h1
          · exact absurd hc h2
          · exact absurd hc h3
          · exact absurd hc h4

/-- C9 witness: two mini-apps and no main mini-app name. -/
theorem inconsistentInputs_failFast_witness :
    (runMiniApp ⟨false, false⟩ "android"
      { mainMiniAppName := none, miniapps := some ["a", "b"],
        dependencies := none, descriptor := none, dev := none }).1 = [] ∧
    ∃ msg, (runMiniApp ⟨false, false⟩ "android"
      { mainMiniAppName := none, miniapps := some ["a", "b"],
        dependencies := none, descriptor := none, dev := none }).2 =
      Except.error msg :=
  inconsistentInputs_failFast ⟨false, false⟩ "android"
    { mainMiniAppName := none, miniapps := some ["a", "b"],
      dependencies := none, descriptor := none, dev := none }
    (Or.inl (by decide))

/-- With both release-status filters set, no version entry survives. -/
theorem napDescriptorEntry_bothFilters (platform : Option String)
    (appName : String) (p : PlatformEntry) (version : VersionEntry) :
    napDescriptorEntry platform true true appName p version = none := by
  unfold napDescriptorEntry
  split
  · rw [if_neg]
    simp
  · rfl

/-- A one-app, one-platform, one-version store content for concrete runs. -/
def sampleApps : List NativeApp :=
  [{ name := "MyApp",
     platforms := [{ name := "android",
                     versions := [{ name := "1.0.0", isReleased := true }] }] }]

/-- C10: with both `onlyReleasedVersions` and `onlyNonReleasedVersions`
set, `getNapDescriptorStringsFromCauldron` returns the empty array — no
version satisfies both filters; and every string it ever returns is a
defined `name:platform:version` descriptor built from an entry of the store
contents (the `undefined` placeholders are removed by the final filter). -/
theorem napDescriptorStrings_shape (nativeApps : List NativeApp)
    (platform : Option String) (onlyR onlyNR : Bool) (s : String)
    (h : s ∈ getNapDescriptorStringsFromCauldron nativeApps platform onlyR onlyNR) :
    getNapDescriptorStringsFromCauldron nativeApps platform true true = [] ∧
    ∃ app ∈ nativeApps, ∃ p ∈ app.platforms, ∃ version ∈ p.versions,
      s = app.name ++ ":" ++ p.name ++ ":" ++ version.name := by
  constructor
  · simp [getNapDescriptorStringsFromCauldron, napDescriptorEntry_bothFilters]
  · simp only [getNapDescriptorStringsFromCauldron, List.mem_flatMap,
      List.mem_filterMap] at h
    obtain ⟨app, happ, p, hp, version, hv, hentry⟩ := h
    refine ⟨app, happ, p, hp, version, hv, ?_⟩
    unfold napDescriptorEntry at hentry
    split at hentry
    · split at hentry
      · exact (Option.some.inj hentry).symm
      · simp at hentry
    · simp at hentry

/-- C10 witness: the sample store yields `MyApp:android:1.0.0` with the
filters off, and the empty array with both filters on. -/
theorem napDescriptorStrings_shape_witness :
    getNapDescriptorStringsFromCauldron sampleApps none true true = [] ∧
    ∃ app ∈ sampleApps, ∃ p ∈ app.platforms, ∃ version ∈ p.versions,
      "MyApp:android:1.0.0" = app.name ++ ":" ++ p.name ++ ":" ++ version.name :=
  napDescriptorStrings_shape sampleApps none false false "MyApp:android:1.0.0"
    (by decide)

end ErnUtils
